import Mathlib

/-!
Shallow embedding of the offline task-sync backend
(`src/db/database.ts`, `src/services/taskService.ts`,
`src/services/syncService.ts`) and proofs about the claims of its
specification.

The SQLite store is modelled as two lists of rows kept in insertion
(rowid) order; `SELECT *` without `ORDER BY` returns that order.
JSON payloads are modelled structurally: the code only ever stores
`JSON.stringify(task)` or `JSON.stringify({id})`, and `JSON.parse`
round-trips them.
-/

namespace TaskSync

/-- `sync_status` of a task row and `status` of a sync_queue row:
TEXT column restricted by the schema comments to these three values. -/
inductive Status where
  | pending
  | synced
  | error
  deriving DecidableEq, Repr

/-- `status` column of a sync_queue row: 'pending' | 'success' | 'error'. -/
inductive QStatus where
  | pending
  | success
  | error
  deriving DecidableEq, Repr

/-- `operation` column: 'create' | 'update' | 'delete'. -/
inductive Op where
  | create
  | update
  | delete
  deriving DecidableEq, Repr

/-- The `Task` interface of `src/types/index.ts`, which is also the shape
of a row of the `tasks` table (`server_id` and `last_synced_at` are
nullable columns / optional fields). Timestamps are ISO-8601 strings. -/
structure Task where
  id : String
  title : String
  description : String
  completed : Bool
  is_deleted : Bool
  sync_status : Status
  created_at : String
  updated_at : String
  server_id : Option String := none
  last_synced_at : Option String := none
  deriving DecidableEq, Repr

/-- The JSON value stored in the `data` column of `sync_queue`:
`taskService.ts` writes `JSON.stringify(task)` for create/update and
`JSON.stringify({id})` for delete. -/
inductive Payload where
  | task (t : Task)
  | idOnly (id : String)
  deriving DecidableEq, Repr

/-- A row of the `sync_queue` table (`src/db/database.ts` schema).
`id` is a TEXT PRIMARY KEY that `taskService.ts` omits on insert
(SQLite then stores NULL), hence `Option`. -/
structure QueueRow where
  id : Option String
  task_id : String
  operation : Op
  data : Payload
  status : QStatus := .pending
  created_at : String
  retry_count : Nat := 0
  error_message : Option String := none
  last_attempt : Option String := none
  deriving DecidableEq, Repr

/-- The SQLite database: the `tasks` and `sync_queue` tables, rows in
insertion (rowid) order. -/
structure Store where
  tasks : List Task
  queue : List QueueRow
  deriving DecidableEq, Repr

/-- The comparison SQLite's `ORDER BY created_at ASC` uses on the TEXT
column (BINARY collation = lexicographic byte order, which for ASCII
ISO-8601 strings coincides with `String` order). -/
def createdLe (a b : QueueRow) : Bool :=
  decide (a.created_at ≤ b.created_at)

namespace Database

/-- `Database.addToSyncQueue` (`database.ts` lines 92-98): inserts a row
with a fresh uuid `id`, the given task id, operation and payload; the
`status`, `created_at` and `retry_count` columns take their schema
defaults (the row's `created_at` is SQLite's CURRENT_TIMESTAMP, passed
here as `now`). -/
def addToSyncQueue (uuid : String) (now : String) (taskId : String)
    (operation : Op) (payload : Payload) (s : Store) : Store :=
  { s with queue := s.queue ++
      [{ id := some uuid, task_id := taskId, operation := operation,
         data := payload, created_at := now }] }

/-- `Database.getSyncQueue` (`database.ts` lines 101-120):
`SELECT * FROM sync_queue WHERE status = 'pending'
 ORDER BY created_at ASC LIMIT ?`. -/
def getSyncQueue (s : Store) (batchSize : Nat := 50) : List QueueRow :=
  ((s.queue.filter (fun r => r.status = .pending)).mergeSort createdLe).take
    batchSize

/-- `Database.updateSyncStatus` (`database.ts` lines 123-133):
`UPDATE sync_queue SET status = ?, last_attempt = ?,
 retry_count = retry_count + 1, error_message = ? WHERE id = ?`
(`now` is the `new Date().toISOString()` taken in the method). -/
def updateSyncStatus (now : String) (id : String) (status : QStatus)
    (errorMessage : Option String) (s : Store) : Store :=
  { s with queue := s.queue.map (fun r =>
      if r.id = some id then
        { r with status := status, last_attempt := some now,
                 retry_count := r.retry_count + 1,
                 error_message := errorMessage }
      else r) }

end Database

/-- The `Partial<Task>` request body fields `createTask` reads
(`taskService.ts` lines 23-36): `title`, `description`, `completed`,
each possibly absent. -/
structure CreateInput where
  title : Option String := none
  description : Option String := none
  completed : Option Bool := none
  deriving DecidableEq, Repr

/-- JavaScript `String(x)` applied to a possibly-undefined string, as in
`String(taskData.title)`: `String(undefined)` is the string
`"undefined"`; a present string is unchanged. -/
def jsStringOfOpt : Option String → String
  | none => "undefined"
  | some s => s

namespace TaskService

/-- `TaskService.createTask` (`taskService.ts` lines 23-53): builds the
task object (no validation of any field), inserts it into `tasks`, and
inserts one `create` queue row whose `data` is `JSON.stringify(task)`;
the queue insert omits the `id` column (stored NULL) and passes
`created_at := now`. `uuid` is the generated `uuidv4()`, `now` the ISO
timestamp taken at the top of the method. Returns the created task and
the new store. -/
def createTask (uuid : String) (now : String) (taskData : CreateInput)
    (s : Store) : Task × Store :=
  let task : Task :=
    { id := uuid,
      title := jsStringOfOpt taskData.title,
      description := taskData.description.getD "",
      completed := taskData.completed.getD false,
      is_deleted := false,
      sync_status := .pending,
      created_at := now,
      updated_at := now }
  let s1 : Store := { s with tasks := s.tasks ++ [task] }
  let s2 : Store := { s1 with queue := s1.queue ++
      [{ id := none, task_id := task.id, operation := .create,
         data := .task task, created_at := now }] }
  (task, s2)

/-- `TaskService.getTask` (`taskService.ts` lines 58-76):
`SELECT * FROM tasks WHERE id = ?`, `null` when absent. -/
def getTask (id : String) (s : Store) : Option Task :=
  s.tasks.find? (fun t => t.id = id)

/-- `TaskService.getAllTasks` (`taskService.ts` lines 81-96):
`SELECT * FROM tasks WHERE is_deleted = 0`. -/
def getAllTasks (s : Store) : List Task :=
  s.tasks.filter (fun t => t.is_deleted = false)

end TaskService

/-- Whether a single `axios.post` resolves (HTTP 2xx) or rejects; the
sync code observes nothing else about the remote peer's answer. -/
inductive PostResult where
  | ok
  | fail
  deriving DecidableEq, Repr

namespace SyncService

/-- `SyncService.checkConnectivity` (`syncService.ts` lines 16-24):
GET the health endpoint, `true` if it resolves, `false` if it rejects.
`reachable` is whether that GET resolves. Note: no other method of
`SyncService` calls this. -/
def checkConnectivity (reachable : Bool) : Bool :=
  reachable

/-- The result object of `SyncService.sync` (`syncService.ts` 44-48). -/
structure SyncRet where
  success : Bool
  synced_items : Nat
  failed_items : Nat
  deriving DecidableEq, Repr

/-- The per-item loop of `SyncService.sync` (lines 57-66): for each
queue row, `axios.post('…/sync', JSON.parse(item.data))`; on resolve
increment `successCount`, on reject increment `failCount`. Neither
branch touches the database, so the store threads through unchanged.
Also returns the list of payloads handed to `axios.post`, in order. -/
def syncLoop (remote : Payload → PostResult) :
    List QueueRow → Store → Store × Nat × Nat × List Payload
  | [], s => (s, 0, 0, [])
  | item :: rest, s =>
    match remote item.data with
    | .ok =>
      let (s', succ, fail, posts) := syncLoop remote rest s
      (s', succ + 1, fail, item.data :: posts)
    | .fail =>
      let (s', succ, fail, posts) := syncLoop remote rest s
      (s', succ, fail + 1, item.data :: posts)

/-- `SyncService.sync` (`syncService.ts` lines 44-74):
`SELECT * FROM sync_queue` (every row, any status, rowid order), then
the loop above; returns the summary. The store and the ordered list of
posted payloads are returned alongside to expose the method's effects. -/
def sync (remote : Payload → PostResult) (s : Store) :
    Store × SyncRet × List Payload :=
  let queue := s.queue
  let (s', succ, fail, posts) := syncLoop remote queue s
  (s', { success := fail = 0, synced_items := succ, failed_items := fail },
   posts)

/-- The result object of `SyncService.processSyncQueue` (lines 100-103):
`success` and the list of failed `task_id`s. -/
structure BatchRet where
  success : Bool
  failed : List String
  deriving DecidableEq, Repr

/-- The per-item loop of `SyncService.processSyncQueue` (lines 89-97):
post each payload; on reject push the item's `task_id` onto `failed`.
No database writes in either branch. -/
def batchLoop (remote : Payload → PostResult) :
    List QueueRow → Store → Store × List String × List Payload
  | [], s => (s, [], [])
  | item :: rest, s =>
    match remote item.data with
    | .ok =>
      let (s', failed, posts) := batchLoop remote rest s
      (s', failed, item.data :: posts)
    | .fail =>
      let (s', failed, posts) := batchLoop remote rest s
      (s', item.task_id :: failed, item.data :: posts)

/-- `SyncService.processSyncQueue` (`syncService.ts` lines 80-104):
`SELECT * FROM sync_queue LIMIT ?` — the first `batchSize` rows in
rowid order, with no status filter and no ORDER BY — then the loop. -/
def processSyncQueue (remote : Payload → PostResult) (batchSize : Nat)
    (s : Store) : Store × BatchRet × List Payload :=
  let queue := s.queue.take batchSize
  let (s', failed, posts) := batchLoop remote queue s
  (s', { success := failed.isEmpty, failed := failed }, posts)

end SyncService

/-! Concrete fixtures used to evaluate the code at specific inputs. -/

/-- A task last edited locally at T1 = 2024-01-02. -/
def taskA : Task :=
  { id := "t1", title := "A", description := "", completed := false,
    is_deleted := false, sync_status := .pending,
    created_at := "2024-01-02T00:00:00Z",
    updated_at := "2024-01-02T00:00:00Z" }

/-- The queue entry enqueued for `taskA`, payload a snapshot of it. -/
def entryA : QueueRow :=
  { id := some "q1", task_id := "t1", operation := .create,
    data := .task taskA, created_at := "2024-01-02T00:00:00Z" }

/-- Store holding exactly `taskA` and its pending queue entry. -/
def storeA : Store := { tasks := [taskA], queue := [entryA] }

/-- A remote peer to which every `axios.post` fails (rejects):
unreachable network, timeout, or non-2xx response. -/
def failRemote : Payload → PostResult := fun _ => .fail

/-- A remote peer that accepts every `axios.post` (resolves 2xx),
e.g. answering success with remoteId R1: the response body is never
read by the code, only resolve/reject is observable. -/
def okRemote : Payload → PostResult := fun _ => .ok

/-- Second snapshot of task `t1` after a later local edit. -/
def taskA2 : Task :=
  { taskA with title := "A2", updated_at := "2024-01-03T00:00:00Z" }

/-- Earlier-created queue entry for task `t1` (the create). -/
def entryB1 : QueueRow :=
  { id := some "q1", task_id := "t1", operation := .create,
    data := .task taskA, created_at := "2024-01-02T00:00:00Z" }

/-- Later-created queue entry for task `t1` (the update). -/
def entryB2 : QueueRow :=
  { id := some "q2", task_id := "t1", operation := .update,
    data := .task taskA2, created_at := "2024-01-03T00:00:00Z" }

/-- Store with two queue entries for the same task, oldest first. -/
def storeB : Store := { tasks := [taskA2], queue := [entryB1, entryB2] }

/-- A remote peer that rejects the first entry's payload and accepts
the second's. -/
def remoteB : Payload → PostResult :=
  fun p => if p = .task taskA then .fail else .ok

/-- A queue entry used for the `updateSyncStatus` idempotence check. -/
def entryQ : QueueRow :=
  { id := some "q1", task_id := "t1", operation := .update,
    data := .task taskA, created_at := "2024-01-02T00:00:00Z" }

/-- Store holding exactly `entryQ`. -/
def storeQ : Store := { tasks := [], queue := [entryQ] }

/-- `storeQ` after one `updateSyncStatus(q1, error)` call. -/
def storeQ1 : Store :=
  Database.updateSyncStatus "2024-01-04T00:00:00Z" "q1" .error
    (some "boom") storeQ

/-- `storeQ1` after a second `updateSyncStatus(q1, error)` call with the
same terminal status. -/
def storeQ2 : Store :=
  Database.updateSyncStatus "2024-01-04T00:00:01Z" "q1" .error
    (some "boom") storeQ1

/-! Helper lemmas shared by several developments. -/

/-- Neither branch of the per-item loop of `SyncService.sync` performs a
database write: the store component of `syncLoop` is the input store. -/
theorem syncLoop_store_fst (remote : Payload → PostResult)
    (l : List QueueRow) (s : Store) :
    (SyncService.syncLoop remote l s).1 = s := by
  induction l with
  | nil => rfl
  | cons h t ih =>
    cases hr : remote h.data <;> simp [SyncService.syncLoop, hr, ih]

/-- Same for the per-item loop of `SyncService.processSyncQueue`. -/
theorem batchLoop_store_fst (remote : Payload → PostResult)
    (l : List QueueRow) (s : Store) :
    (SyncService.batchLoop remote l s).1 = s := by
  induction l with
  | nil => rfl
  | cons h t ih =>
    cases hr : remote h.data <;> simp [SyncService.batchLoop, hr, ih]

/-- `syncLoop` posts every queue row's payload, in list order, whatever
the remote answers. -/
theorem syncLoop_posts (remote : Payload → PostResult)
    (l : List QueueRow) (s : Store) :
    (SyncService.syncLoop remote l s).2.2.2 = l.map (fun r => r.data) := by
  induction l with
  | nil => rfl
  | cons h t ih =>
    cases hr : remote h.data <;> simp [SyncService.syncLoop, hr, ih]

/-- `find?` commutes with `map` by a function that preserves the
searched predicate. -/
theorem find_map_of_pres {α : Type} (p : α → Bool) (u : α → α)
    (hp : ∀ a, p (u a) = p a) (l : List α) :
    (l.map u).find? p = (l.find? p).map u := by
  rw [List.find?_map]
  have : (p ∘ u) = p := funext hp
  rw [this]

/-- C10: a reconciliation pass performs no store writes at all: for
every initial store, every remote behaviour and every batch size, both
`SyncService.sync` and `SyncService.processSyncQueue` return the store
exactly as they found it; only the returned summary reflects the
outcomes. -/
theorem reconciliation_pass_writes_nothing
    (remote : Payload → PostResult) (s : Store) (n : Nat) :
    (SyncService.sync remote s).1 = s ∧
    (SyncService.processSyncQueue remote n s).1 = s := by
  constructor
  · show (SyncService.syncLoop remote s.queue s).1 = s
    exact syncLoop_store_fst remote s.queue s
  · show (SyncService.batchLoop remote (s.queue.take n) s).1 = s
    exact batchLoop_store_fst remote (s.queue.take n) s

/-- C6: for every store state and every limit n, `Database.getSyncQueue`
returns at most n entries, every returned entry has status pending, and
the returned entries are ordered by creation timestamp ascending. -/
theorem getSyncQueue_batch_bounded_pending_sorted (s : Store) (n : Nat) :
    (Database.getSyncQueue s n).length ≤ n ∧
    (∀ e ∈ Database.getSyncQueue s n, e.status = QStatus.pending) ∧
    List.Pairwise (fun a b : QueueRow => a.created_at ≤ b.created_at)
      (Database.getSyncQueue s n) := by
  refine ⟨List.length_take_le n _, ?_, ?_⟩
  · intro e he
    have h1 := List.mem_of_mem_take he
    rw [List.mem_mergeSort] at h1
    have h2 := (List.mem_filter.mp h1).2
    simpa using h2
  · have htr : ∀ a b c : QueueRow, createdLe a b = true →
        createdLe b c = true → createdLe a c = true := by
      intro a b c hab hbc
      simp only [createdLe, decide_eq_true_eq] at hab hbc ⊢
      exact le_trans hab hbc
    have hto : ∀ a b : QueueRow, (createdLe a b || createdLe b a) = true := by
      intro a b
      simp only [createdLe, Bool.or_eq_true, decide_eq_true_eq]
      exact le_total _ _
    have hs := List.sorted_mergeSort htr hto
      (s.queue.filter (fun r => r.status = .pending))
    have hss := List.Pairwise.sublist
      (List.take_sublist n _) hs
    exact hss.imp (by
      intro a b h
      simpa [createdLe] using h)

/-- C7 counterexample: `updateSyncStatus` (the code behind
`markOutcome`) called twice in a row with the same terminal status
`error` on entry q1 does not leave the retry counter identical: it is 1
after the first call and 2 after the second. -/
theorem updateSyncStatus_twice_changes_retry_count :
    storeQ1.queue.map QueueRow.retry_count = [1] ∧
    storeQ2.queue.map QueueRow.retry_count = [2] ∧
    storeQ2.queue.map QueueRow.retry_count ≠
      storeQ1.queue.map QueueRow.retry_count := by
  decide

/-- The effect of one `updateSyncStatus` call on the row it addresses:
looked up by id, the row comes back with the new status, the new
attempt timestamp, the retry counter incremented, and the message. -/
theorem updateSyncStatus_find (now i : String) (st : QStatus)
    (msg : Option String) (s : Store) :
    (Database.updateSyncStatus now i st msg s).queue.find?
        (fun r => r.id = some i) =
      (s.queue.find? (fun r => r.id = some i)).map
        (fun r => { r with
          status := st,
          last_attempt := some now,
          retry_count := r.retry_count + 1,
          error_message := msg }) := by
  have hp : ∀ r : QueueRow,
      (decide ((if r.id = some i then ({ r with
          status := st,
          last_attempt := some now,
          retry_count := r.retry_count + 1,
          error_message := msg } : QueueRow) else r).id = some i)) =
        decide (r.id = some i) := by
    intro r
    by_cases h : r.id = some i <;> simp [h]
  have hfm := find_map_of_pres (fun r : QueueRow => decide (r.id = some i))
    (fun r : QueueRow => if r.id = some i then { r with
        status := st,
        last_attempt := some now,
        retry_count := r.retry_count + 1,
        error_message := msg } else r) hp s.queue
  refine Eq.trans hfm ?_
  cases hf : s.queue.find? (fun r => r.id = some i) with
  | none => rfl
  | some r =>
    have hr : r.id = some i := by simpa using List.find?_some hf
    simp [hr]

/-- C7: calling `updateSyncStatus` twice in a row with the same terminal
status leaves the entry's status identical, but increments the retry
counter a second time: after the second call the counter is one greater
than after the first (the status field is idempotent, the retry counter
is not). -/
theorem updateSyncStatus_repeat_same_terminal_status
    (now1 now2 i : String) (st : QStatus) (msg : Option String)
    (s : Store) :
    ((Database.updateSyncStatus now2 i st msg
        (Database.updateSyncStatus now1 i st msg s)).queue.find?
          (fun r => r.id = some i)).map QueueRow.status =
      ((Database.updateSyncStatus now1 i st msg s).queue.find?
          (fun r => r.id = some i)).map QueueRow.status ∧
    ((Database.updateSyncStatus now2 i st msg
        (Database.updateSyncStatus now1 i st msg s)).queue.find?
          (fun r => r.id = some i)).map QueueRow.retry_count =
      ((Database.updateSyncStatus now1 i st msg s).queue.find?
          (fun r => r.id = some i)).map
            (fun r => r.retry_count + 1) := by
  rw [updateSyncStatus_find now2, updateSyncStatus_find now1]
  cases hf : s.queue.find? (fun r => r.id = some i) with
  | none => exact ⟨rfl, rfl⟩
  | some r => exact ⟨rfl, rfl⟩

/-- C9: for every valid create input, right after `createTask` returns,
the created task's sync_status is pending and — provided the generated
uuid is fresh in the queue — exactly one queue entry exists for that
task id: a `create` entry whose payload is a full snapshot of the new
task. -/
theorem createTask_pending_single_create_entry (uuid now : String)
    (input : CreateInput) (s : Store)
    (hfresh : ∀ r ∈ s.queue, r.task_id ≠ uuid) :
    (TaskService.createTask uuid now input s).1.sync_status =
        Status.pending ∧
    (TaskService.createTask uuid now input s).2.queue.filter
        (fun r => r.task_id = uuid) =
      [{ id := none, task_id := uuid, operation := .create,
         data := .task (TaskService.createTask uuid now input s).1,
         created_at := now }] := by
  constructor
  · rfl
  · show (s.queue ++
        [({ id := none, task_id := uuid, operation := .create,
            data := .task (TaskService.createTask uuid now input s).1,
            created_at := now } : QueueRow)]).filter
          (fun r => r.task_id = uuid) = _
    rw [List.filter_append]
    have h0 : s.queue.filter
        (fun r : QueueRow => decide (r.task_id = uuid)) = [] :=
      List.filter_eq_nil_iff.mpr (by
        intro a ha
        simpa using hfresh a ha)
    rw [h0]
    simp

/-- C9 witness: `createTask` on the empty store with title "A". -/
theorem createTask_pending_single_create_entry_witness :
    (TaskService.createTask "t1" "2024-01-01T00:00:00Z"
        { title := some "A" } ⟨[], []⟩).1.sync_status = Status.pending ∧
    (TaskService.createTask "t1" "2024-01-01T00:00:00Z"
        { title := some "A" } ⟨[], []⟩).2.queue.filter
        (fun r => r.task_id = "t1") =
      [{ id := none, task_id := "t1", operation := .create,
         data := .task (TaskService.createTask "t1"
           "2024-01-01T00:00:00Z" { title := some "A" } ⟨[], []⟩).1,
         created_at := "2024-01-01T00:00:00Z" }] :=
  createTask_pending_single_create_entry "t1" "2024-01-01T00:00:00Z"
    { title := some "A" } ⟨[], []⟩ (by intro r hr; cases hr)

/-- C8: `createTask` performs no title validation: with title absent it
persists a task (titled by JavaScript coercion "undefined") and a queue
entry, and with an empty title it persists the task with title "";
no ValidationError path exists (the function is total). -/
theorem createTask_persists_without_validation :
    (TaskService.createTask "t1" "2024-01-01T00:00:00Z" {}
        ⟨[], []⟩).1.title = "undefined" ∧
    (TaskService.createTask "t1" "2024-01-01T00:00:00Z" {}
        ⟨[], []⟩).2.tasks.length = 1 ∧
    (TaskService.createTask "t1" "2024-01-01T00:00:00Z" {}
        ⟨[], []⟩).2.queue.length = 1 ∧
    (TaskService.createTask "t2" "2024-01-01T00:00:00Z"
        { title := some "" } ⟨[], []⟩).1.title = "" ∧
    (TaskService.createTask "t2" "2024-01-01T00:00:00Z"
        { title := some "" } ⟨[], []⟩).2.tasks.length = 1 := by
  decide

/-- C1: on a store holding a task and its conflicting queue entry,
`sync` changes nothing whatever the remote answers to the POST (2xx
body or 409 rejection): the local task row keeps its old fields, no
resolved fields are written, and the queue entry is never marked
success — last-write-wins resolution does not occur. -/
theorem sync_ignores_conflict_outcome (remote : Payload → PostResult) :
    (SyncService.sync remote storeA).1 = storeA ∧
    (SyncService.sync remote storeA).1.tasks.map Task.title = ["A"] ∧
    (SyncService.sync remote storeA).1.tasks.map Task.updated_at =
      ["2024-01-02T00:00:00Z"] ∧
    (SyncService.sync remote storeA).1.queue.map QueueRow.status =
      [QStatus.pending] := by
  have h : (SyncService.sync remote storeA).1 = storeA :=
    syncLoop_store_fst remote storeA.queue storeA
  refine ⟨h, ?_, ?_, ?_⟩ <;> rw [h] <;> rfl

/-- C4: with the remote accepting the POST (success outcome, any
remoteId in the unread body), `sync` reports one synced item but writes
nothing: the task row keeps sync_status pending, server_id NULL,
last_synced_at NULL, and the queue entry stays pending. -/
theorem sync_success_outcome_written_nowhere :
    (SyncService.sync okRemote storeA).2.1 =
      { success := true, synced_items := 1, failed_items := 0 } ∧
    (SyncService.sync okRemote storeA).1.tasks.map Task.sync_status =
      [Status.pending] ∧
    (SyncService.sync okRemote storeA).1.tasks.map Task.server_id =
      [none] ∧
    (SyncService.sync okRemote storeA).1.tasks.map Task.last_synced_at =
      [none] ∧
    (SyncService.sync okRemote storeA).1.queue.map QueueRow.status =
      [QStatus.pending] := by
  decide

/-- C5: with every POST failing, `sync` never touches the retry
counter: the entry still has retry_count 0 and status pending after a
pass (and after four consecutive passes), is retransmitted on every
pass, and never reaches a terminal error — retries are unbounded. -/
theorem sync_never_increments_retry_counter :
    (SyncService.sync failRemote storeA).1 = storeA ∧
    (SyncService.sync failRemote ((SyncService.sync failRemote
        ((SyncService.sync failRemote ((SyncService.sync failRemote
          storeA).1)).1)).1)).1 = storeA ∧
    (SyncService.sync failRemote storeA).2.2 = [Payload.task taskA] ∧
    (SyncService.sync failRemote storeA).2.1.failed_items = 1 ∧
    storeA.queue.map QueueRow.retry_count = [0] ∧
    storeA.queue.map QueueRow.status = [QStatus.pending] := by
  decide

/-- C3: `sync` never consults the connectivity probe: with the remote
unreachable (every request rejects, and `checkConnectivity` would
report false) it still transmits the queued payload and returns one
failed item instead of returning immediately with zero processed
items. The store is untouched only because `sync` never writes. -/
theorem sync_runs_despite_unreachable_remote :
    SyncService.checkConnectivity false = false ∧
    (SyncService.sync failRemote storeA).2.1 =
      { success := false, synced_items := 0, failed_items := 1 } ∧
    (SyncService.sync failRemote storeA).2.2 ≠ [] ∧
    (SyncService.processSyncQueue failRemote 50 storeA).2.2 ≠ [] ∧
    (SyncService.sync failRemote storeA).1 = storeA := by
  decide

/-- C2: `sync` dispatches a later-created entry of the same task even
though the earlier entry's transmission just failed with its retries
not exhausted: on a queue holding the create then the update of task
t1, with the remote rejecting the first payload, both payloads are
posted in sequence, and the first entry is left pending with
retry_count 0. -/
theorem sync_sends_later_entry_after_earlier_failure :
    (SyncService.sync remoteB storeB).2.2 =
      [Payload.task taskA, Payload.task taskA2] ∧
    remoteB (Payload.task taskA) = PostResult.fail ∧
    entryB1.task_id = entryB2.task_id ∧
    entryB1.created_at = "2024-01-02T00:00:00Z" ∧
    entryB2.created_at = "2024-01-03T00:00:00Z" ∧
    (SyncService.sync remoteB storeB).2.1.failed_items = 1 ∧
    (SyncService.sync remoteB storeB).1 = storeB ∧
    storeB.queue.map QueueRow.status =
      [QStatus.pending, QStatus.pending] ∧
    storeB.queue.map QueueRow.retry_count = [0, 0] := by
  decide

end TaskSync
